import Mathlib

/-!
Verification of the slot-booking admission core.

The definitions below are a shallow embedding of the repository's booking
core: the Prisma data model (`prisma/migrations`), `BookingService`
(`createBooking`, `cancelBooking`), `SlotService.deleteSlot`, the
repository helpers they call (`SlotRepository.findByIdForUpdate`,
`SlotRepository.updateStatus`, `BookingRepository.create`,
`BookingRepository.updateStatus`, `BookingRepository.countActiveBookings`),
the fixed-window rate limiter (`src/middlewares/rateLimit.ts`) and the
single-consumer booking queue (`src/queues/bookingQueue.ts`,
`src/workers/bookingWorker.ts`).

Record ids (cuid strings in the source) are modelled as `Nat`; timestamps
(`Date`, epoch milliseconds) as `Int`.  A Prisma interactive transaction is
modelled as a pure function from the database state to either a rejection
(the thrown `AppError`, or the error-handler image of a storage error) or
the committed state: a throw inside `prisma.$transaction` rolls every write
back, so a rejected call returns no state at all.
-/

namespace SlotBooking

/-- The Prisma schema's `enum SlotStatus`. -/
inductive SlotStatus where
  | AVAILABLE
  | BOOKED
  | CANCELLED
deriving DecidableEq, Repr

/-- The Prisma schema's `enum BookingStatus`. -/
inductive BookingStatus where
  | CONFIRMED
  | CANCELLED
deriving DecidableEq, Repr

/-- A row of the `Slot` table. -/
structure Slot where
  id : Nat
  hostId : Nat
  startTime : Int
  endTime : Int
  status : SlotStatus
deriving DecidableEq, Repr

/-- A row of the `Booking` table. -/
structure Booking where
  id : Nat
  slotId : Nat
  userId : Nat
  status : BookingStatus
deriving DecidableEq, Repr

/-- The database state seen by one transaction: the `Slot` and `Booking`
tables, the `User` table (only its ids matter to the admission core), and
the id generator for inserted bookings. -/
structure DBState where
  slots : List Slot
  bookings : List Booking
  users : List Nat
  nextBookingId : Nat
deriving DecidableEq, Repr

/-- The caller-facing rejection taxonomy: `NotFoundError`,
`BadRequestError` (InvalidRequest), `ForbiddenError`, `ConflictError` of
`src/types`, plus the error-handler image of an unexpected storage
failure. -/
inductive Rejection where
  | notFound (what : String)
  | invalidRequest (msg : String)
  | forbidden (msg : String)
  | conflict (msg : String)
  | internal (msg : String)
deriving DecidableEq, Repr

/-- Constant `MAX_ACTIVE_BOOKINGS` from `src/utils/constants.ts`. -/
def MAX_ACTIVE_BOOKINGS : Nat := 5

/-- Constant `CANCELLATION_WINDOW_HOURS` from `src/utils/constants.ts`. -/
def CANCELLATION_WINDOW_HOURS : Int := 1

/-- One hour in epoch milliseconds (`1000 * 60 * 60` in the source). -/
def MILLIS_PER_HOUR : Int := 3600000

/-- Function `SlotRepository.findById` / `findByIdForUpdate`: look a slot up by id
(the `FOR UPDATE` lock has no effect on a single sequential transaction). -/
def findSlot (slots : List Slot) (id : Nat) : Option Slot :=
  slots.find? (fun sl => sl.id == id)

/-- Function `BookingRepository.findById` / `findByIdWithDetails`: look a booking up
by id. -/
def findBooking (bookings : List Booking) (id : Nat) : Option Booking :=
  bookings.find? (fun b => b.id == id)

/-- Function `SlotRepository.updateStatus`: update where the id matches, set the status. -/
def slotUpdateStatus (slots : List Slot) (id : Nat) (status : SlotStatus) :
    List Slot :=
  slots.map (fun sl => if sl.id = id then ⟨sl.id, sl.hostId, sl.startTime, sl.endTime, status⟩ else sl)

/-- Function `BookingRepository.updateStatus`: update where the id matches, set the status. -/
def bookingUpdateStatus (bookings : List Booking) (id : Nat) (status : BookingStatus) :
    List Booking :=
  bookings.map (fun b => if b.id = id then ⟨b.id, b.slotId, b.userId, status⟩ else b)

/-- The `where` clause of `BookingRepository.countActiveBookings`: the
booking belongs to the user, has status `CONFIRMED`, and its related slot
has `startTime > now`. -/
def isFutureConfirmed (st : DBState) (userId : Nat) (now : Int) (b : Booking) : Bool :=
  b.userId == userId && b.status == BookingStatus.CONFIRMED &&
    match findSlot st.slots b.slotId with
    | some sl => decide (now < sl.startTime)
    | none => false

/-- Function `BookingRepository.countActiveBookings`: bookings of the user with
status `CONFIRMED` whose related slot has `startTime > now`. -/
def countActiveBookings (st : DBState) (userId : Nat) (now : Int) : Nat :=
  (st.bookings.filter (isFutureConfirmed st userId now)).length

/-- Modelled from the spec: `BookingRepository.countActiveBookingsWithHost`
is called by `BookingService.createBooking` but its definition is not in the
source tree; the spec's rule 7 reads "Caller must have no other CONFIRMED
booking with the same host", so we count the caller's CONFIRMED bookings
whose related slot belongs to the given host. -/
def countActiveBookingsWithHost (st : DBState) (userId hostId : Nat) : Nat :=
  (st.bookings.filter (fun b =>
    b.userId == userId && b.status == BookingStatus.CONFIRMED &&
      match findSlot st.slots b.slotId with
      | some sl => sl.hostId == hostId
      | none => false)).length

/-- Number of CONFIRMED booking rows for one slot — the quantity governed
by the partial unique index `unique_confirmed_booking_per_slot`. -/
def confirmedCountForSlot (bookings : List Booking) (slotId : Nat) : Nat :=
  (bookings.filter (fun b => b.slotId == slotId && b.status == BookingStatus.CONFIRMED)).length

/-- The predicate of the partial unique index
`unique_confirmed_booking_per_slot` (`CREATE UNIQUE INDEX ... ON
"Booking" ("slotId") WHERE status = 'CONFIRMED'`): does a CONFIRMED row for
this slot already exist? -/
def hasConfirmedForSlot (bookings : List Booking) (slotId : Nat) : Bool :=
  bookings.any (fun b => b.slotId == slotId && b.status == BookingStatus.CONFIRMED)

/-- Message of the `ConflictError` thrown at step 6 of
`BookingService.createBooking`. -/
def maxBookingsMsg : String :=
  "You have reached the maximum of " ++ toString MAX_ACTIVE_BOOKINGS ++ " active bookings"

/-- Function `BookingService.createBooking`: one serializable transaction that locks
the slot row, runs the admission checks in source order, failing fast on
the first violated rule, then sets the slot BOOKED and inserts a CONFIRMED
booking.  The final guard is the Slot Store's partial unique index
`unique_confirmed_booking_per_slot`: an insert of a second CONFIRMED row
for the slot violates it, the transaction rolls back, and the error handler
maps the P2002 unique-constraint violation to a 409 CONFLICT. -/
def createBooking (st : DBState) (now : Int) (userId slotId : Nat) :
    Except Rejection (DBState × Booking) :=
  match findSlot st.slots slotId with
  | none => .error (.notFound "Slot")
  | some slot =>
    if slot.status ≠ SlotStatus.AVAILABLE then
      .error (.conflict "Slot is no longer available")
    else if slot.startTime ≤ now then
      .error (.invalidRequest "Cannot book a slot in the past")
    else if slot.hostId = userId then
      .error (.invalidRequest "You cannot book your own slot")
    else if MAX_ACTIVE_BOOKINGS ≤ countActiveBookings st userId now then
      .error (.conflict maxBookingsMsg)
    else if 0 < countActiveBookingsWithHost st userId slot.hostId then
      .error (.conflict "You already have an active booking with this host")
    else if hasConfirmedForSlot st.bookings slotId then
      .error (.conflict "A record with this value already exists")
    else
      let booking : Booking := ⟨st.nextBookingId, slotId, userId, BookingStatus.CONFIRMED⟩
      .ok (⟨slotUpdateStatus st.slots slotId SlotStatus.BOOKED,
            st.bookings ++ [booking], st.users, st.nextBookingId + 1⟩, booking)

/-- Message of the `BadRequestError` thrown by the cancellation-window
check of `BookingService.cancelBooking`. -/
def cancellationWindowMsg : String :=
  "Cancellation is only allowed at least " ++ toString CANCELLATION_WINDOW_HOURS ++
    " hour(s) before the slot start time"

/-- Function `BookingService.cancelBooking`: fetch the booking with its slot, check
ownership, the not-already-cancelled rule and the cancellation window
(`hoursUntilSlot < CANCELLATION_WINDOW_HOURS` rejects, where
`hoursUntilSlot = (slotStart - now) / (1000*60*60)`; dividing by the
positive constant preserves the comparison, so the guard is
`slotStart - now < CANCELLATION_WINDOW_HOURS * MILLIS_PER_HOUR`), then in
one transaction set the booking CANCELLED and the slot AVAILABLE.  The
booking's slot always exists (`Booking.slotId` is a foreign key); a missing
slot row would surface as an unexpected storage failure. -/
def cancelBooking (st : DBState) (now : Int) (userId bookingId : Nat) :
    Except Rejection (DBState × Booking) :=
  match findBooking st.bookings bookingId with
  | none => .error (.notFound "Booking")
  | some booking =>
    match findSlot st.slots booking.slotId with
    | none => .error (.internal "Booking slot missing")
    | some slot =>
      if booking.userId ≠ userId then
        .error (.forbidden "You can only cancel your own bookings")
      else if booking.status = BookingStatus.CANCELLED then
        .error (.conflict "Booking is already cancelled")
      else if slot.startTime - now < CANCELLATION_WINDOW_HOURS * MILLIS_PER_HOUR then
        .error (.invalidRequest cancellationWindowMsg)
      else
        .ok (⟨slotUpdateStatus st.slots booking.slotId SlotStatus.AVAILABLE,
              bookingUpdateStatus st.bookings bookingId BookingStatus.CANCELLED,
              st.users, st.nextBookingId⟩,
             ⟨booking.id, booking.slotId, booking.userId, BookingStatus.CANCELLED⟩)

/-- Function `SlotService.deleteSlot`: only the owner may delete, a BOOKED slot
cannot be deleted, deleting an already-CANCELLED slot is a no-op, and
otherwise the slot row is deleted (`SlotRepository.delete`); the
`Booking.slotId` foreign key is `ON DELETE CASCADE`, so the slot's booking
rows go with it. -/
def deleteSlot (st : DBState) (hostId slotId : Nat) : Except Rejection DBState :=
  match findSlot st.slots slotId with
  | none => .error (.notFound "Slot")
  | some slot =>
    if slot.hostId ≠ hostId then
      .error (.forbidden "You can only delete your own slots")
    else if slot.status = SlotStatus.BOOKED then
      .error (.conflict "Cannot delete a booked slot")
    else if slot.status = SlotStatus.CANCELLED then
      .ok st
    else
      .ok ⟨st.slots.filter (fun sl => !(sl.id == slotId)),
           st.bookings.filter (fun b => !(b.slotId == slotId)),
           st.users, st.nextBookingId⟩

/-- Counter store of the fixed-window rate limiter
(`src/middlewares/rateLimit.ts`): one Redis counter per key plus the set of
keys whose window TTL has been set (with the TTL seconds). -/
structure RLState where
  counters : List (String × Nat)
  ttls : List (String × Nat)
deriving DecidableEq, Repr

/-- Current counter value for a key (0 when the key is absent). -/
def rlCount (st : RLState) (key : String) : Nat :=
  match st.counters.find? (fun kv => kv.1 == key) with
  | some kv => kv.2
  | none => 0

/-- Increment the first entry for the key, or create it at 1. -/
def incrCounters : List (String × Nat) → String → List (String × Nat)
  | [], k => [(k, 1)]
  | kv :: rest, k =>
    if kv.1 = k then (kv.1, kv.2 + 1) :: rest else kv :: incrCounters rest k

/-- Operation `redis.incr`: atomically increment the key's counter and return the
post-increment value. -/
def redisIncr (st : RLState) (key : String) : RLState × Nat :=
  (⟨incrCounters st.counters key, st.ttls⟩, rlCount st key + 1)

/-- Operation `redis.expire key windowSeconds`: record the window TTL for the key. -/
def redisExpire (st : RLState) (key : String) (seconds : Nat) : RLState :=
  ⟨st.counters, (key, seconds) :: st.ttls⟩

/-- Has a window TTL been set for this key? -/
def rlHasTtl (st : RLState) (key : String) : Bool :=
  st.ttls.any (fun kv => kv.1 == key)

/-- The rate-limit metadata attached to a response: whether the request is
permitted, `X-RateLimit-Limit` and `X-RateLimit-Remaining`
(`Math.max(0, maxRequests - count)`, which is `Nat` subtraction). -/
structure RLResult where
  permitted : Bool
  limit : Nat
  remaining : Nat
deriving DecidableEq, Repr

/-- One call through `createRateLimiter`'s happy path: increment the
counter, set the window TTL only when this was the counter's first
increment in the window, and deny exactly when the post-increment count
exceeds the maximum. -/
def rateLimitStep (maxRequests windowSeconds : Nat) (st : RLState) (key : String) :
    RLState × RLResult :=
  let p := redisIncr st key
  let st' := if p.2 = 1 then redisExpire p.1 key windowSeconds else p.1
  (st', ⟨decide (p.2 ≤ maxRequests), maxRequests, maxRequests - p.2⟩)

/-- State after `n` rate-limiter calls for one key. -/
def rateLimitIter (maxRequests windowSeconds : Nat) (key : String) (st : RLState) :
    Nat → RLState
  | 0 => st
  | n + 1 => (rateLimitStep maxRequests windowSeconds (rateLimitIter maxRequests windowSeconds key st n) key).1

/-- Metadata returned to the `n`-th request (1-based) for one key. -/
def rateLimitResultOfRequest (maxRequests windowSeconds : Nat) (key : String)
    (st : RLState) (n : Nat) : RLResult :=
  (rateLimitStep maxRequests windowSeconds (rateLimitIter maxRequests windowSeconds key st (n - 1)) key).2

/-- A Redis connection as seen by one middleware call: the store plus
which of the three operations (`incr`, `expire`, `ttl`) would fail with an
infrastructure error. -/
structure RedisConn where
  st : RLState
  incrFails : Bool
  expireFails : Bool
  ttlFails : Bool
deriving DecidableEq, Repr

/-- What one middleware call does with the request: call `next()` so the
request reaches the booking path, answer 429 `RATE_LIMIT_EXCEEDED`, or
surface a 5xx error (never produced by this middleware). -/
inductive MiddlewareOutcome where
  | proceed
  | rateLimited
  | internalFailure
deriving DecidableEq, Repr

/-- The full middleware of `createRateLimiter`, including its
`try`/`catch`: every Redis operation runs inside the `try`, and any failure
falls to the `catch`, which calls `next()` — the limiter fails open.
The store keeps whatever writes happened before the failing operation. -/
def rateLimitMiddleware (maxRequests windowSeconds : Nat) (c : RedisConn) (key : String) :
    RedisConn × MiddlewareOutcome :=
  if c.incrFails then (c, .proceed)
  else
    let p := redisIncr c.st key
    if p.2 = 1 ∧ c.expireFails then
      (⟨p.1, c.incrFails, c.expireFails, c.ttlFails⟩, .proceed)
    else
      let st' := if p.2 = 1 then redisExpire p.1 key windowSeconds else p.1
      if c.ttlFails then
        (⟨st', c.incrFails, c.expireFails, c.ttlFails⟩, .proceed)
      else
        (⟨st', c.incrFails, c.expireFails, c.ttlFails⟩,
         if p.2 ≤ maxRequests then .proceed else .rateLimited)

/-- A job on the booking queue (`BookingJobData`). -/
structure BookingJob where
  userId : Nat
  slotId : Nat
  timestamp : Int
deriving DecidableEq, Repr

/-- A job result (`BookingJobResult`). -/
structure BookingJobResult where
  success : Bool
  booking : Option Booking
  rejection : Option Rejection
deriving DecidableEq, Repr

/-- Function `processBookingJob` of `src/workers/bookingWorker.ts`: run the
Admission Transaction for the job and wrap the outcome; a thrown `AppError`
becomes a failure result. -/
def processBookingJob (now : Int) (st : DBState) (job : BookingJob) :
    DBState × BookingJobResult :=
  match createBooking st now job.userId job.slotId with
  | .ok p => (p.1, ⟨true, some p.2, none⟩)
  | .error e => (st, ⟨false, none, some e⟩)

/-- The single booking worker (`concurrency: 1`): jobs are consumed one at
a time in strict enqueue order, job `N+1` starting only after job `N`'s
transaction has committed or failed. -/
def runBookingWorker (now : Int) (st : DBState) :
    List BookingJob → DBState × List BookingJobResult
  | [] => (st, [])
  | j :: rest =>
    let p := processBookingJob now st j
    let q := runBookingWorker now p.1 rest
    (q.1, p.2 :: q.2)

/-- One operation of the admission core, with the wall-clock instant at
which it runs. -/
inductive Op where
  | book (now : Int) (userId slotId : Nat)
  | cancel (now : Int) (userId bookingId : Nat)
deriving DecidableEq, Repr

/-- The state after one operation: a committed transaction's state, or the
unchanged state when the transaction rolled back. -/
def applyOp (st : DBState) : Op → DBState
  | .book now u s =>
    match createBooking st now u s with
    | .ok p => p.1
    | .error _ => st
  | .cancel now u b =>
    match cancelBooking st now u b with
    | .ok p => p.1
    | .error _ => st

/-- The state after a sequence of operations. -/
def applyOps (st : DBState) (ops : List Op) : DBState := ops.foldl applyOp st

/-- The core invariant: at most one CONFIRMED booking row per slot. -/
def AtMostOneConfirmedPerSlot (st : DBState) : Prop :=
  ∀ s : Nat, confirmedCountForSlot st.bookings s ≤ 1

/-! ### Lemmas about the repository helpers -/

theorem slotUpdateStatus_id_eq (sl : Slot) (id : Nat) (status : SlotStatus) :
    (if sl.id = id then (⟨sl.id, sl.hostId, sl.startTime, sl.endTime, status⟩ : Slot) else sl).id = sl.id := by
  split <;> rfl

/-- Update commutes with lookup: the updated table looks up to the
old row with only its status replaced (when its id is the updated one). -/
theorem findSlot_slotUpdateStatus (slots : List Slot) (id id' : Nat) (status : SlotStatus) :
    findSlot (slotUpdateStatus slots id status) id' =
      (findSlot slots id').map
        (fun sl => if sl.id = id then ⟨sl.id, sl.hostId, sl.startTime, sl.endTime, status⟩ else sl) := by
  simp only [findSlot, slotUpdateStatus, List.find?_map]
  congr 1
  have hp : ((fun sl : Slot => sl.id == id') ∘
      (fun sl => if sl.id = id then ⟨sl.id, sl.hostId, sl.startTime, sl.endTime, status⟩ else sl)) =
      fun sl : Slot => sl.id == id' := by
    funext sl
    simp only [Function.comp_apply, slotUpdateStatus_id_eq]
  rw [hp]

theorem bookingUpdateStatus_id_eq (b : Booking) (id : Nat) (status : BookingStatus) :
    (if b.id = id then (⟨b.id, b.slotId, b.userId, status⟩ : Booking) else b).id = b.id := by
  split <;> rfl

/-- Booking update commutes with lookup. -/
theorem findBooking_bookingUpdateStatus (bookings : List Booking) (id id' : Nat) (status : BookingStatus) :
    findBooking (bookingUpdateStatus bookings id status) id' =
      (findBooking bookings id').map
        (fun b => if b.id = id then ⟨b.id, b.slotId, b.userId, status⟩ else b) := by
  simp only [findBooking, bookingUpdateStatus, List.find?_map]
  congr 1
  have hp : ((fun b : Booking => b.id == id') ∘
      (fun b => if b.id = id then ⟨b.id, b.slotId, b.userId, status⟩ else b)) =
      fun b : Booking => b.id == id' := by
    funext b
    simp only [Function.comp_apply, bookingUpdateStatus_id_eq]
  rw [hp]

theorem findSlot_mem (slots : List Slot) (id : Nat) (sl : Slot)
    (h : findSlot slots id = some sl) : sl ∈ slots ∧ sl.id = id := by
  have hm := List.find?_mem h
  have hp := List.find?_some h
  exact ⟨hm, beq_iff_eq.mp hp⟩

/-! ### Lemmas about the confirmed-bookings count -/

theorem confirmedCountForSlot_append (bs : List Booking) (b : Booking) (s : Nat) :
    confirmedCountForSlot (bs ++ [b]) s =
      confirmedCountForSlot bs s +
        (if b.slotId == s && b.status == BookingStatus.CONFIRMED then 1 else 0) := by
  simp only [confirmedCountForSlot, List.filter_append, List.length_append]
  congr 1
  by_cases h : (b.slotId == s && b.status == BookingStatus.CONFIRMED) = true
  · simp [List.filter, h]
  · simp [List.filter, h]

theorem confirmedCountForSlot_cancel_le (bs : List Booking) (id : Nat) (s : Nat) :
    confirmedCountForSlot (bookingUpdateStatus bs id BookingStatus.CANCELLED) s ≤
      confirmedCountForSlot bs s := by
  induction bs with
  | nil => simp [bookingUpdateStatus, confirmedCountForSlot]
  | cons a rest ih =>
    simp only [bookingUpdateStatus, confirmedCountForSlot, List.map_cons, List.filter] at ih ⊢
    by_cases hid : a.id = id
    · simp only [if_pos hid]
      have hpred : (((⟨a.id, a.slotId, a.userId, BookingStatus.CANCELLED⟩ : Booking).slotId == s &&
          (⟨a.id, a.slotId, a.userId, BookingStatus.CANCELLED⟩ : Booking).status == BookingStatus.CONFIRMED)) = false := by
        simp [show (BookingStatus.CANCELLED == BookingStatus.CONFIRMED) = false from rfl]
      rw [hpred]
      cases hpa : (a.slotId == s && a.status == BookingStatus.CONFIRMED) <;> simp <;> omega
    · simp only [if_neg hid]
      cases hpa : (a.slotId == s && a.status == BookingStatus.CONFIRMED) <;> simp [hpa] <;> omega

theorem confirmedCountForSlot_eq_zero_of_not_has (bs : List Booking) (s : Nat)
    (h : hasConfirmedForSlot bs s = false) : confirmedCountForSlot bs s = 0 := by
  simp only [hasConfirmedForSlot, List.any_eq_false] at h
  simp only [confirmedCountForSlot, List.length_eq_zero, List.filter_eq_nil]
  exact fun b hb => by simpa using h b hb

/-! ### Inversion of the transactions -/

/-- Inversion of a committed Admission Transaction: every admission check
passed, including the partial unique index, and the committed state is the
old one with the slot set BOOKED and one CONFIRMED booking appended. -/
theorem createBooking_ok_elim {st : DBState} {now : Int} {userId slotId : Nat}
    {st' : DBState} {bk : Booking}
    (h : createBooking st now userId slotId = .ok (st', bk)) :
    ∃ sl, findSlot st.slots slotId = some sl ∧
      sl.status = SlotStatus.AVAILABLE ∧
      now < sl.startTime ∧
      sl.hostId ≠ userId ∧
      countActiveBookings st userId now < MAX_ACTIVE_BOOKINGS ∧
      countActiveBookingsWithHost st userId sl.hostId = 0 ∧
      hasConfirmedForSlot st.bookings slotId = false ∧
      bk = ⟨st.nextBookingId, slotId, userId, BookingStatus.CONFIRMED⟩ ∧
      st' = ⟨slotUpdateStatus st.slots slotId SlotStatus.BOOKED,
             st.bookings ++ [bk], st.users, st.nextBookingId + 1⟩ := by
  unfold createBooking at h
  cases hfind : findSlot st.slots slotId with
  | none => rw [hfind] at h; exact absurd h (by simp)
  | some sl =>
    simp only [hfind] at h
    refine ⟨sl, by simp [hfind], ?_⟩
    split_ifs at h with h1 h2 h3 h4 h5 h6
    simp only [Except.ok.injEq, Prod.mk.injEq] at h
    obtain ⟨hst, hbk⟩ := h
    refine ⟨not_not.mp h1, not_le.mp h2, h3, not_le.mp h4,
      Nat.eq_zero_of_not_pos h5, Bool.eq_false_iff.mpr h6, hbk.symm, ?_⟩
    rw [← hst, ← hbk]

/-- Inversion of a committed cancellation: the booking exists, belongs to
the caller, was not already cancelled, the slot starts at least the
cancellation window from now, and the committed state has the booking set
CANCELLED and the slot set AVAILABLE. -/
theorem cancelBooking_ok_elim {st : DBState} {now : Int} {userId bookingId : Nat}
    {st' : DBState} {bk : Booking}
    (h : cancelBooking st now userId bookingId = .ok (st', bk)) :
    ∃ b sl, findBooking st.bookings bookingId = some b ∧
      findSlot st.slots b.slotId = some sl ∧
      b.userId = userId ∧
      b.status = BookingStatus.CONFIRMED ∧
      CANCELLATION_WINDOW_HOURS * MILLIS_PER_HOUR ≤ sl.startTime - now ∧
      bk = ⟨b.id, b.slotId, b.userId, BookingStatus.CANCELLED⟩ ∧
      st' = ⟨slotUpdateStatus st.slots b.slotId SlotStatus.AVAILABLE,
             bookingUpdateStatus st.bookings bookingId BookingStatus.CANCELLED,
             st.users, st.nextBookingId⟩ := by
  unfold cancelBooking at h
  cases hfindb : findBooking st.bookings bookingId with
  | none => rw [hfindb] at h; exact absurd h (by simp)
  | some b =>
    simp only [hfindb] at h
    cases hfinds : findSlot st.slots b.slotId with
    | none => rw [hfinds] at h; exact absurd h (by simp)
    | some sl =>
      simp only [hfinds] at h
      refine ⟨b, sl, by simp [hfindb], by simp [hfinds], ?_⟩
      split_ifs at h with h1 h2 h3
      simp only [Except.ok.injEq, Prod.mk.injEq] at h
      obtain ⟨hst, hbk⟩ := h
      have hconf : b.status = BookingStatus.CONFIRMED := by
        cases hs : b.status
        · rfl
        · exact absurd hs h2
      exact ⟨not_not.mp h1, hconf, not_lt.mp h3, hbk.symm, hst.symm⟩

/-! ### Preservation of the one-confirmed-booking invariant -/

/-- One operation — a booking attempt or a cancellation attempt, committed
or rolled back — preserves the at-most-one-CONFIRMED-per-slot invariant. -/
theorem applyOp_preserves_invariant (st : DBState) (op : Op)
    (h : AtMostOneConfirmedPerSlot st) : AtMostOneConfirmedPerSlot (applyOp st op) := by
  cases op with
  | book now u s =>
    simp only [applyOp]
    cases hc : createBooking st now u s with
    | error e => exact h
    | ok p =>
      obtain ⟨sl, hfind, hav, hfut, hhost, hcnt, hdup, hnoconf, hbk, hst⟩ :=
        createBooking_ok_elim hc
      intro s'
      change confirmedCountForSlot p.1.bookings s' ≤ 1
      rw [hst]
      show confirmedCountForSlot (st.bookings ++ [p.2]) s' ≤ 1
      rw [confirmedCountForSlot_append]
      by_cases hcase : (p.2.slotId == s' && p.2.status == BookingStatus.CONFIRMED) = true
      · rw [if_pos hcase]
        have hsid : p.2.slotId = s := by rw [hbk]
        have hs' : s = s' := by
          have := (Bool.and_eq_true _ _).mp hcase
          exact hsid ▸ beq_iff_eq.mp this.1
        subst hs'
        rw [confirmedCountForSlot_eq_zero_of_not_has _ _ hnoconf]
      · rw [if_neg hcase]
        simpa using h s'
  | cancel now u b =>
    simp only [applyOp]
    cases hc : cancelBooking st now u b with
    | error e => exact h
    | ok p =>
      obtain ⟨b0, sl, hfb, hfs, hown, hconf, hwin, hbk, hst⟩ := cancelBooking_ok_elim hc
      intro s'
      change confirmedCountForSlot p.1.bookings s' ≤ 1
      rw [hst]
      exact le_trans (confirmedCountForSlot_cancel_le _ _ _) (h s')

/-- C1: starting from any state in which every slot has at most one
CONFIRMED booking row, every sequence of book and cancel operations
preserves this — book inserts a CONFIRMED booking only after observing the
slot AVAILABLE (and past the partial unique index
`unique_confirmed_booking_per_slot`), and cancel never creates one. -/
theorem c1_at_most_one_confirmed_per_slot (st : DBState) (ops : List Op)
    (h : AtMostOneConfirmedPerSlot st) :
    AtMostOneConfirmedPerSlot (applyOps st ops) := by
  induction ops generalizing st with
  | nil => exact h
  | cons op rest ih =>
    exact ih (applyOp st op) (applyOp_preserves_invariant st op h)

/-- A demo slot: id 1, hosted by user 10, one future hour-long window. -/
def demoSlot : Slot := ⟨1, 10, 7200000, 10800000, SlotStatus.AVAILABLE⟩

/-- A demo state: one AVAILABLE slot, no bookings yet. -/
def demoState : DBState := ⟨[demoSlot], [], [10, 2, 3], 100⟩

/-- C1 witness: the invariant holds of the demo state and is still true
after a successful booking followed by a cancellation attempt. -/
theorem c1_at_most_one_confirmed_per_slot_witness :
    AtMostOneConfirmedPerSlot demoState ∧
      AtMostOneConfirmedPerSlot
        (applyOps demoState [Op.book 0 2 1, Op.cancel 0 2 100]) :=
  ⟨fun s => by simp [demoState, confirmedCountForSlot],
   c1_at_most_one_confirmed_per_slot demoState [Op.book 0 2 1, Op.cancel 0 2 100]
     (fun s => by simp [demoState, confirmedCountForSlot])⟩

/-- The partial-unique-index predicate is the emptiness of the confirmed
count. -/
theorem hasConfirmedForSlot_eq_false_iff (bs : List Booking) (s : Nat) :
    hasConfirmedForSlot bs s = false ↔ confirmedCountForSlot bs s = 0 := by
  simp only [hasConfirmedForSlot, List.any_eq_false, confirmedCountForSlot,
    List.length_eq_zero, List.filter_eq_nil]

/-- C2: the admission checks of `book(userId, slotId)` run strictly in the
listed order and the outcome is decided by the first violated rule: absent
slot → NotFound; non-AVAILABLE slot → Conflict; slot not strictly in the
future → InvalidRequest; caller is the host → InvalidRequest; 5 or more
future CONFIRMED bookings → Conflict; an existing CONFIRMED booking with
the same host → Conflict; otherwise (in a state where the slot, being
AVAILABLE, has no CONFIRMED booking row) the slot is set BOOKED, exactly
one CONFIRMED booking row is inserted and returned. -/
theorem c2_createBooking_check_order (st : DBState) (now : Int) (u s : Nat) :
    (findSlot st.slots s = none →
      createBooking st now u s = .error (.notFound "Slot")) ∧
    (∀ sl, findSlot st.slots s = some sl →
      (sl.status ≠ SlotStatus.AVAILABLE →
        createBooking st now u s = .error (.conflict "Slot is no longer available")) ∧
      (sl.status = SlotStatus.AVAILABLE → sl.startTime ≤ now →
        createBooking st now u s = .error (.invalidRequest "Cannot book a slot in the past")) ∧
      (sl.status = SlotStatus.AVAILABLE → now < sl.startTime → sl.hostId = u →
        createBooking st now u s = .error (.invalidRequest "You cannot book your own slot")) ∧
      (sl.status = SlotStatus.AVAILABLE → now < sl.startTime → sl.hostId ≠ u →
        MAX_ACTIVE_BOOKINGS ≤ countActiveBookings st u now →
        createBooking st now u s = .error (.conflict maxBookingsMsg)) ∧
      (sl.status = SlotStatus.AVAILABLE → now < sl.startTime → sl.hostId ≠ u →
        countActiveBookings st u now < MAX_ACTIVE_BOOKINGS →
        0 < countActiveBookingsWithHost st u sl.hostId →
        createBooking st now u s = .error (.conflict "You already have an active booking with this host")) ∧
      (sl.status = SlotStatus.AVAILABLE → now < sl.startTime → sl.hostId ≠ u →
        countActiveBookings st u now < MAX_ACTIVE_BOOKINGS →
        countActiveBookingsWithHost st u sl.hostId = 0 →
        confirmedCountForSlot st.bookings s = 0 →
        createBooking st now u s =
          .ok (⟨slotUpdateStatus st.slots s SlotStatus.BOOKED,
                st.bookings ++ [⟨st.nextBookingId, s, u, BookingStatus.CONFIRMED⟩],
                st.users, st.nextBookingId + 1⟩,
               ⟨st.nextBookingId, s, u, BookingStatus.CONFIRMED⟩))) := by
  constructor
  · intro hn
    unfold createBooking
    rw [hn]
  · intro sl hfind
    refine ⟨?_, ?_, ?_, ?_, ?_, ?_⟩
    · intro h1
      simp only [createBooking, hfind]
      rw [if_pos h1]
    · intro h1 h2
      simp only [createBooking, hfind]
      rw [if_neg (not_not_intro h1), if_pos h2]
    · intro h1 h2 h3
      simp only [createBooking, hfind]
      rw [if_neg (not_not_intro h1), if_neg (not_le.mpr h2), if_pos h3]
    · intro h1 h2 h3 h4
      simp only [createBooking, hfind]
      rw [if_neg (not_not_intro h1), if_neg (not_le.mpr h2), if_neg h3, if_pos h4]
    · intro h1 h2 h3 h4 h5
      simp only [createBooking, hfind]
      rw [if_neg (not_not_intro h1), if_neg (not_le.mpr h2), if_neg h3,
        if_neg (not_le.mpr h4), if_pos h5]
    · intro h1 h2 h3 h4 h5 h6
      simp only [createBooking, hfind]
      rw [if_neg (not_not_intro h1), if_neg (not_le.mpr h2), if_neg h3,
        if_neg (not_le.mpr h4), if_neg (by simp [h5]),
        if_neg (by simp [(hasConfirmedForSlot_eq_false_iff st.bookings s).mpr h6])]

/-- A state whose only slot is already BOOKED with a CONFIRMED booking. -/
def stBooked : DBState :=
  ⟨[⟨1, 10, 7200000, 10800000, SlotStatus.BOOKED⟩], [⟨50, 1, 4, BookingStatus.CONFIRMED⟩],
   [10, 2, 4], 100⟩

/-- A state where user 2 already holds 5 future CONFIRMED bookings with
five distinct hosts, plus an AVAILABLE target slot. -/
def stMax : DBState :=
  ⟨[⟨1, 10, 7200000, 10800000, SlotStatus.AVAILABLE⟩,
    ⟨2, 20, 7200000, 10800000, SlotStatus.BOOKED⟩,
    ⟨3, 21, 7200000, 10800000, SlotStatus.BOOKED⟩,
    ⟨4, 22, 7200000, 10800000, SlotStatus.BOOKED⟩,
    ⟨5, 23, 7200000, 10800000, SlotStatus.BOOKED⟩,
    ⟨6, 24, 7200000, 10800000, SlotStatus.BOOKED⟩],
   [⟨51, 2, 2, BookingStatus.CONFIRMED⟩, ⟨52, 3, 2, BookingStatus.CONFIRMED⟩,
    ⟨53, 4, 2, BookingStatus.CONFIRMED⟩, ⟨54, 5, 2, BookingStatus.CONFIRMED⟩,
    ⟨55, 6, 2, BookingStatus.CONFIRMED⟩],
   [10, 2, 20, 21, 22, 23, 24], 100⟩

/-- A state where user 2 already holds a CONFIRMED booking with host 10,
who also hosts the AVAILABLE target slot. -/
def stDup : DBState :=
  ⟨[⟨1, 10, 7200000, 10800000, SlotStatus.AVAILABLE⟩,
    ⟨2, 10, 9000000, 9600000, SlotStatus.BOOKED⟩],
   [⟨51, 2, 2, BookingStatus.CONFIRMED⟩], [10, 2], 100⟩

/-- C2 witness: each of the seven outcomes of the check order, exercised at
a concrete state. -/
theorem c2_createBooking_check_order_witness :
    createBooking demoState 0 2 99 = .error (.notFound "Slot") ∧
    createBooking stBooked 0 2 1 = .error (.conflict "Slot is no longer available") ∧
    createBooking demoState 8000000 2 1 = .error (.invalidRequest "Cannot book a slot in the past") ∧
    createBooking demoState 0 10 1 = .error (.invalidRequest "You cannot book your own slot") ∧
    createBooking stMax 0 2 1 = .error (.conflict maxBookingsMsg) ∧
    createBooking stDup 0 2 1 = .error (.conflict "You already have an active booking with this host") ∧
    createBooking demoState 0 2 1 =
      .ok (⟨slotUpdateStatus demoState.slots 1 SlotStatus.BOOKED,
            demoState.bookings ++ [⟨demoState.nextBookingId, 1, 2, BookingStatus.CONFIRMED⟩],
            demoState.users, demoState.nextBookingId + 1⟩,
           ⟨demoState.nextBookingId, 1, 2, BookingStatus.CONFIRMED⟩) := by
  refine ⟨?_, ?_, ?_, ?_, ?_, ?_, ?_⟩
  · exact (c2_createBooking_check_order demoState 0 2 99).1 (by decide)
  · exact ((c2_createBooking_check_order stBooked 0 2 1).2
      ⟨1, 10, 7200000, 10800000, SlotStatus.BOOKED⟩ (by decide)).1 (by decide)
  · exact ((c2_createBooking_check_order demoState 8000000 2 1).2 demoSlot
      (by decide)).2.1 (by decide) (by decide)
  · exact ((c2_createBooking_check_order demoState 0 10 1).2 demoSlot
      (by decide)).2.2.1 (by decide) (by decide) (by decide)
  · exact ((c2_createBooking_check_order stMax 0 2 1).2
      ⟨1, 10, 7200000, 10800000, SlotStatus.AVAILABLE⟩ (by decide)).2.2.2.1
      (by decide) (by decide) (by decide) (by decide)
  · exact ((c2_createBooking_check_order stDup 0 2 1).2
      ⟨1, 10, 7200000, 10800000, SlotStatus.AVAILABLE⟩ (by decide)).2.2.2.2.1
      (by decide) (by decide) (by decide) (by decide) (by decide)
  · exact ((c2_createBooking_check_order demoState 0 2 1).2 demoSlot
      (by decide)).2.2.2.2.2 (by decide) (by decide) (by decide) (by decide)
      (by decide) (by decide)

/-- A state whose BOOKED slot starts exactly one hour (3600000 ms) after
the current instant 0, with user 2 holding its CONFIRMED booking. -/
def stBoundary : DBState :=
  ⟨[⟨1, 10, 3600000, 7200000, SlotStatus.BOOKED⟩], [⟨5, 1, 2, BookingStatus.CONFIRMED⟩],
   [10, 2], 100⟩

/-- C3 counterexample: with the slot starting exactly one hour from now —
a case the claim says is rejected with InvalidRequest — the code's
`hoursUntilSlot < CANCELLATION_WINDOW_HOURS` guard does not fire and the
cancellation commits. -/
theorem c3_cancel_at_exactly_one_hour_succeeds :
    cancelBooking stBoundary 0 2 5 =
      .ok (⟨[⟨1, 10, 3600000, 7200000, SlotStatus.AVAILABLE⟩],
            [⟨5, 1, 2, BookingStatus.CANCELLED⟩], [10, 2], 100⟩,
           ⟨5, 1, 2, BookingStatus.CANCELLED⟩) := by
  rfl

/-- C3 (amended): for the caller's own not-yet-cancelled booking, the call
is rejected with InvalidRequest exactly when the slot starts strictly less
than `CANCELLATION_WINDOW_HOURS` (1 hour) from now; whenever at least one
hour remains — including exactly one hour — the cancellation succeeds. -/
theorem c3_cancellation_window (st : DBState) (now : Int) (u bid : Nat)
    (b : Booking) (sl : Slot)
    (hfb : findBooking st.bookings bid = some b)
    (hfs : findSlot st.slots b.slotId = some sl)
    (hown : b.userId = u)
    (hnc : b.status ≠ BookingStatus.CANCELLED) :
    (cancelBooking st now u bid = .error (.invalidRequest cancellationWindowMsg) ↔
      sl.startTime - now < CANCELLATION_WINDOW_HOURS * MILLIS_PER_HOUR) ∧
    (CANCELLATION_WINDOW_HOURS * MILLIS_PER_HOUR ≤ sl.startTime - now →
      cancelBooking st now u bid =
        .ok (⟨slotUpdateStatus st.slots b.slotId SlotStatus.AVAILABLE,
              bookingUpdateStatus st.bookings bid BookingStatus.CANCELLED,
              st.users, st.nextBookingId⟩,
             ⟨b.id, b.slotId, b.userId, BookingStatus.CANCELLED⟩)) := by
  constructor
  · by_cases hw : sl.startTime - now < CANCELLATION_WINDOW_HOURS * MILLIS_PER_HOUR
    · simp only [cancelBooking, hfb, hfs]
      rw [if_neg (not_not_intro hown), if_neg hnc, if_pos hw]
      simp [hw]
    · simp only [cancelBooking, hfb, hfs]
      rw [if_neg (not_not_intro hown), if_neg hnc, if_neg hw]
      simp [hw]
  · intro hge
    simp only [cancelBooking, hfb, hfs]
    rw [if_neg (not_not_intro hown), if_neg hnc, if_neg (not_lt.mpr hge)]

/-- C3 witness: one millisecond inside the window the call is rejected;
at exactly the one-hour boundary it succeeds. -/
theorem c3_cancellation_window_witness :
    cancelBooking stBoundary 1 2 5 = .error (.invalidRequest cancellationWindowMsg) ∧
    cancelBooking stBoundary 0 2 5 =
      .ok (⟨slotUpdateStatus stBoundary.slots 1 SlotStatus.AVAILABLE,
            bookingUpdateStatus stBoundary.bookings 5 BookingStatus.CANCELLED,
            stBoundary.users, stBoundary.nextBookingId⟩,
           ⟨5, 1, 2, BookingStatus.CANCELLED⟩) := by
  constructor
  · exact ((c3_cancellation_window stBoundary 1 2 5 ⟨5, 1, 2, BookingStatus.CONFIRMED⟩
      ⟨1, 10, 3600000, 7200000, SlotStatus.BOOKED⟩ (by decide) (by decide) (by decide)
      (by decide)).1).mpr (by decide)
  · exact (c3_cancellation_window stBoundary 0 2 5 ⟨5, 1, 2, BookingStatus.CONFIRMED⟩
      ⟨1, 10, 3600000, 7200000, SlotStatus.BOOKED⟩ (by decide) (by decide) (by decide)
      (by decide)).2 (by decide)

/-- The `where` predicate of `countActiveBookings`, spelled out as a
proposition: only CONFIRMED bookings whose slot starts strictly in the
future qualify. -/
theorem isFutureConfirmed_iff (st : DBState) (u : Nat) (now : Int) (b : Booking) :
    isFutureConfirmed st u now b = true ↔
      (b.userId = u ∧ b.status = BookingStatus.CONFIRMED ∧
        ∃ sl, findSlot st.slots b.slotId = some sl ∧ now < sl.startTime) := by
  unfold isFutureConfirmed
  cases hf : findSlot st.slots b.slotId with
  | none => simp [hf]
  | some sl => simp [hf, and_assoc]

/-- C4: with the earlier checks passed, `book` rejects with the
max-active-bookings Conflict exactly when the caller already holds at
least `MAX_ACTIVE_BOOKINGS` (5) CONFIRMED bookings on strictly-future
slots; and the count counts exactly those bookings (CANCELLED bookings and
bookings on past slots are excluded). -/
theorem c4_max_active_bookings (st : DBState) (now : Int) (u s : Nat) (sl : Slot)
    (hfind : findSlot st.slots s = some sl)
    (hav : sl.status = SlotStatus.AVAILABLE)
    (hfut : now < sl.startTime)
    (hhost : sl.hostId ≠ u) :
    (createBooking st now u s = .error (.conflict maxBookingsMsg) ↔
      MAX_ACTIVE_BOOKINGS ≤ countActiveBookings st u now) ∧
    (∀ b, b ∈ st.bookings.filter (isFutureConfirmed st u now) ↔
      (b ∈ st.bookings ∧ b.userId = u ∧ b.status = BookingStatus.CONFIRMED ∧
        ∃ sl', findSlot st.slots b.slotId = some sl' ∧ now < sl'.startTime)) := by
  constructor
  · constructor
    · intro h
      by_contra hlt
      simp only [createBooking, hfind] at h
      rw [if_neg (not_not_intro hav), if_neg (not_le.mpr hfut), if_neg hhost,
        if_neg hlt] at h
      split_ifs at h with h5 h6
      · simp only [Except.error.injEq, Rejection.conflict.injEq, maxBookingsMsg] at h
        exact absurd h (by decide)
      · simp only [Except.error.injEq, Rejection.conflict.injEq, maxBookingsMsg] at h
        exact absurd h (by decide)
    · intro hge
      simp only [createBooking, hfind]
      rw [if_neg (not_not_intro hav), if_neg (not_le.mpr hfut), if_neg hhost, if_pos hge]
  · intro b
    rw [List.mem_filter, isFutureConfirmed_iff]

/-- State `stMax` after user 2 cancels booking 55: slot 6 is AVAILABLE again and
only four future CONFIRMED bookings remain. -/
def stFour : DBState :=
  ⟨[⟨1, 10, 7200000, 10800000, SlotStatus.AVAILABLE⟩,
    ⟨2, 20, 7200000, 10800000, SlotStatus.BOOKED⟩,
    ⟨3, 21, 7200000, 10800000, SlotStatus.BOOKED⟩,
    ⟨4, 22, 7200000, 10800000, SlotStatus.BOOKED⟩,
    ⟨5, 23, 7200000, 10800000, SlotStatus.BOOKED⟩,
    ⟨6, 24, 7200000, 10800000, SlotStatus.AVAILABLE⟩],
   [⟨51, 2, 2, BookingStatus.CONFIRMED⟩, ⟨52, 3, 2, BookingStatus.CONFIRMED⟩,
    ⟨53, 4, 2, BookingStatus.CONFIRMED⟩, ⟨54, 5, 2, BookingStatus.CONFIRMED⟩,
    ⟨55, 6, 2, BookingStatus.CANCELLED⟩],
   [10, 2, 20, 21, 22, 23, 24], 100⟩

/-- C4 witness: at 5 future CONFIRMED bookings the 6th attempt is rejected
with the max-bookings Conflict; cancelling one drops the count to 4, after
which the same attempt no longer hits that rule and in fact succeeds. -/
theorem c4_max_active_bookings_witness :
    countActiveBookings stMax 2 0 = 5 ∧
    createBooking stMax 0 2 1 = .error (.conflict maxBookingsMsg) ∧
    cancelBooking stMax 0 2 55 = .ok (stFour, ⟨55, 6, 2, BookingStatus.CANCELLED⟩) ∧
    countActiveBookings stFour 2 0 = 4 ∧
    createBooking stFour 0 2 1 ≠ .error (.conflict maxBookingsMsg) ∧
    createBooking stFour 0 2 1 =
      .ok (⟨slotUpdateStatus stFour.slots 1 SlotStatus.BOOKED,
            stFour.bookings ++ [⟨100, 1, 2, BookingStatus.CONFIRMED⟩],
            stFour.users, 101⟩, ⟨100, 1, 2, BookingStatus.CONFIRMED⟩) := by
  refine ⟨by decide, ?_, by rfl, by decide, ?_, by rfl⟩
  · exact (c4_max_active_bookings stMax 0 2 1 ⟨1, 10, 7200000, 10800000, SlotStatus.AVAILABLE⟩
      (by decide) (by decide) (by decide) (by decide)).1.mpr (by decide)
  · intro hcontr
    exact absurd ((c4_max_active_bookings stFour 0 2 1
      ⟨1, 10, 7200000, 10800000, SlotStatus.AVAILABLE⟩
      (by decide) (by decide) (by decide) (by decide)).1.mp hcontr) (by decide)

/-- A found booking carries the id it was looked up by. -/
theorem findBooking_id (bookings : List Booking) (id : Nat) (b : Booking)
    (h : findBooking bookings id = some b) : b.id = id := by
  unfold findBooking at h
  exact beq_iff_eq.mp (List.find?_some (p := fun x : Booking => x.id == id) h)

/-- C5: a successful cancellation sets the booking CANCELLED and the slot
back to AVAILABLE in one transaction, retains the booking row rather than
deleting it, and leaves the slot satisfying `book`'s availability check. -/
theorem c5_cancel_transaction_effects (st : DBState) (now : Int) (u bid : Nat)
    (st' : DBState) (bk : Booking)
    (h : cancelBooking st now u bid = .ok (st', bk)) :
    ∃ b, findBooking st.bookings bid = some b ∧
      b.status = BookingStatus.CONFIRMED ∧
      bk = ⟨b.id, b.slotId, b.userId, BookingStatus.CANCELLED⟩ ∧
      st' = ⟨slotUpdateStatus st.slots b.slotId SlotStatus.AVAILABLE,
             bookingUpdateStatus st.bookings bid BookingStatus.CANCELLED,
             st.users, st.nextBookingId⟩ ∧
      findBooking st'.bookings bid = some bk ∧
      st'.bookings.length = st.bookings.length ∧
      (∃ sl', findSlot st'.slots b.slotId = some sl' ∧ sl'.status = SlotStatus.AVAILABLE) := by
  obtain ⟨b, sl, hfb, hfs, hown, hconf, hwin, hbk, hst⟩ := cancelBooking_ok_elim h
  have hbid : b.id = bid := findBooking_id _ _ _ hfb
  have hslid : sl.id = b.slotId := (findSlot_mem _ _ _ hfs).2
  refine ⟨b, hfb, hconf, hbk, hst, ?_, ?_, ?_⟩
  · rw [hst]
    show findBooking (bookingUpdateStatus st.bookings bid BookingStatus.CANCELLED) bid = some bk
    rw [findBooking_bookingUpdateStatus, hfb, Option.map_some', if_pos hbid, hbk]
  · rw [hst]
    show (bookingUpdateStatus st.bookings bid BookingStatus.CANCELLED).length = st.bookings.length
    exact List.length_map _ _
  · rw [hst]
    refine ⟨⟨sl.id, sl.hostId, sl.startTime, sl.endTime, SlotStatus.AVAILABLE⟩, ?_, rfl⟩
    show findSlot (slotUpdateStatus st.slots b.slotId SlotStatus.AVAILABLE) b.slotId = _
    rw [findSlot_slotUpdateStatus, hfs, Option.map_some', if_pos hslid]

/-- The state from which user 2 cancels their CONFIRMED booking 100. -/
def stCancelReady : DBState :=
  ⟨[⟨1, 10, 7200000, 10800000, SlotStatus.BOOKED⟩], [⟨100, 1, 2, BookingStatus.CONFIRMED⟩],
   [10, 2, 3], 101⟩

/-- State `stCancelReady` after the cancellation commits. -/
def stAfterCancel : DBState :=
  ⟨[⟨1, 10, 7200000, 10800000, SlotStatus.AVAILABLE⟩], [⟨100, 1, 2, BookingStatus.CANCELLED⟩],
   [10, 2, 3], 101⟩

/-- C5 witness: the cancellation effects at a concrete state, and the
freed slot is then successfully booked by the different user 3. -/
theorem c5_cancel_transaction_effects_witness :
    (∃ b, findBooking stCancelReady.bookings 100 = some b ∧
      b.status = BookingStatus.CONFIRMED ∧
      (⟨100, 1, 2, BookingStatus.CANCELLED⟩ : Booking) = ⟨b.id, b.slotId, b.userId, BookingStatus.CANCELLED⟩ ∧
      stAfterCancel = ⟨slotUpdateStatus stCancelReady.slots b.slotId SlotStatus.AVAILABLE,
             bookingUpdateStatus stCancelReady.bookings 100 BookingStatus.CANCELLED,
             stCancelReady.users, stCancelReady.nextBookingId⟩ ∧
      findBooking stAfterCancel.bookings 100 = some ⟨100, 1, 2, BookingStatus.CANCELLED⟩ ∧
      stAfterCancel.bookings.length = stCancelReady.bookings.length ∧
      (∃ sl', findSlot stAfterCancel.slots b.slotId = some sl' ∧ sl'.status = SlotStatus.AVAILABLE)) ∧
    createBooking stAfterCancel 0 3 1 =
      .ok (⟨slotUpdateStatus stAfterCancel.slots 1 SlotStatus.BOOKED,
            stAfterCancel.bookings ++ [⟨101, 1, 3, BookingStatus.CONFIRMED⟩],
            stAfterCancel.users, 102⟩, ⟨101, 1, 3, BookingStatus.CONFIRMED⟩) :=
  ⟨c5_cancel_transaction_effects stCancelReady 0 2 100 stAfterCancel
    ⟨100, 1, 2, BookingStatus.CANCELLED⟩ (by rfl), by rfl⟩

/-- C10: a successful `book` changes exactly the target slot's status
field (to BOOKED) and appends exactly one CONFIRMED booking row: the
target slot's other fields, every other slot row, every pre-existing
booking row and all user rows are unchanged; a rejected `book` changes
nothing at all. -/
theorem c10_createBooking_frame (st : DBState) (now : Int) (u s : Nat) :
    (∀ st' bk, createBooking st now u s = .ok (st', bk) →
      st'.users = st.users ∧
      bk = ⟨st.nextBookingId, s, u, BookingStatus.CONFIRMED⟩ ∧
      st'.bookings = st.bookings ++ [bk] ∧
      (∃ sl, findSlot st.slots s = some sl ∧ sl.status = SlotStatus.AVAILABLE ∧
        findSlot st'.slots s = some ⟨sl.id, sl.hostId, sl.startTime, sl.endTime, SlotStatus.BOOKED⟩) ∧
      (∀ sl0, sl0 ∈ st.slots → sl0.id ≠ s → sl0 ∈ st'.slots) ∧
      (∀ sl0, sl0 ∈ st'.slots → sl0.id ≠ s → sl0 ∈ st.slots) ∧
      (∀ sl0, sl0 ∈ st'.slots → sl0.id = s →
        ∃ sl1, sl1 ∈ st.slots ∧ sl1.id = s ∧ sl0.hostId = sl1.hostId ∧
          sl0.startTime = sl1.startTime ∧ sl0.endTime = sl1.endTime ∧
          sl0.status = SlotStatus.BOOKED)) ∧
    (∀ e, createBooking st now u s = .error e → applyOp st (Op.book now u s) = st) := by
  constructor
  · intro st' bk h
    obtain ⟨sl, hfind, hav, hfut, hhost, hcnt, hdup, hnoconf, hbk, hst⟩ :=
      createBooking_ok_elim h
    have hslid : sl.id = s := (findSlot_mem _ _ _ hfind).2
    refine ⟨by rw [hst], hbk, by rw [hst], ⟨sl, hfind, hav, ?_⟩, ?_, ?_, ?_⟩
    · rw [hst]
      show findSlot (slotUpdateStatus st.slots s SlotStatus.BOOKED) s = _
      rw [findSlot_slotUpdateStatus, hfind, Option.map_some', if_pos hslid]
    · intro sl0 h0 hne
      rw [hst]
      exact List.mem_map.mpr ⟨sl0, h0, by rw [if_neg hne]⟩
    · intro sl0 h0 hne
      rw [hst] at h0
      obtain ⟨a, ha, hfa⟩ := List.mem_map.mp h0
      by_cases haid : a.id = s
      · exfalso
        apply hne
        rw [← hfa, if_pos haid]
        exact haid
      · rw [← hfa, if_neg haid]
        exact ha
    · intro sl0 h0 heq
      rw [hst] at h0
      obtain ⟨a, ha, hfa⟩ := List.mem_map.mp h0
      by_cases haid : a.id = s
      · rw [if_pos haid] at hfa
        exact ⟨a, ha, haid, by rw [← hfa], by rw [← hfa], by rw [← hfa], by rw [← hfa]⟩
      · rw [if_neg haid] at hfa
        exact absurd (hfa ▸ heq) haid
  · intro e h
    simp only [applyOp, h]

/-- State `demoState` after user 2 successfully books slot 1. -/
def stBook : DBState :=
  ⟨[⟨1, 10, 7200000, 10800000, SlotStatus.BOOKED⟩], [⟨100, 1, 2, BookingStatus.CONFIRMED⟩],
   [10, 2, 3], 101⟩

/-- C10 witness: the success frame at a concrete booking, and the no-op
frame at a concrete rejected booking. -/
theorem c10_createBooking_frame_witness :
    stBook.users = demoState.users ∧
    stBook.bookings = demoState.bookings ++ [⟨100, 1, 2, BookingStatus.CONFIRMED⟩] ∧
    applyOp demoState (Op.book 0 10 1) = demoState := by
  have h := (c10_createBooking_frame demoState 0 2 1).1 stBook
    ⟨100, 1, 2, BookingStatus.CONFIRMED⟩ (by rfl)
  exact ⟨h.1, h.2.2.1,
    (c10_createBooking_frame demoState 0 10 1).2
      (.invalidRequest "You cannot book your own slot") (by rfl)⟩

/-- C8 counterexample: host 10 deletes their AVAILABLE slot 1; the call
succeeds but the slot row is deleted outright — the resulting state has no
slot with id 1 at all, in particular none with status CANCELLED, so the
claimed AVAILABLE → CANCELLED transition does not happen. -/
theorem c8_delete_removes_row_counterexample :
    deleteSlot demoState 10 1 = .ok ⟨[], [], [10, 2, 3], 100⟩ ∧
    findSlot (DBState.mk [] [] [10, 2, 3] 100).slots 1 = none :=
  ⟨by rfl, by rfl⟩

/-- C8 (amended): slot status follows AVAILABLE → BOOKED on successful
booking and BOOKED → AVAILABLE on cancellation; host deletion is legal
only from AVAILABLE (BOOKED yields Conflict, absent yields NotFound,
already-CANCELLED is a no-op success) and removes the slot row outright
rather than setting status CANCELLED; and no book or cancel operation ever
puts a slot into status CANCELLED. -/
theorem c8_slot_status_transitions (st : DBState) (now : Int) (u hid s bid : Nat) :
    (∀ st' bk, createBooking st now u s = .ok (st', bk) →
      ∃ sl, findSlot st.slots s = some sl ∧ sl.status = SlotStatus.AVAILABLE ∧
        findSlot st'.slots s = some ⟨sl.id, sl.hostId, sl.startTime, sl.endTime, SlotStatus.BOOKED⟩) ∧
    (∀ st' bk, cancelBooking st now u bid = .ok (st', bk) →
      ∃ b sl, findBooking st.bookings bid = some b ∧
        findSlot st.slots b.slotId = some sl ∧
        findSlot st'.slots b.slotId = some ⟨sl.id, sl.hostId, sl.startTime, sl.endTime, SlotStatus.AVAILABLE⟩) ∧
    (findSlot st.slots s = none → deleteSlot st hid s = .error (.notFound "Slot")) ∧
    (∀ sl, findSlot st.slots s = some sl → sl.hostId = hid →
      (sl.status = SlotStatus.BOOKED →
        deleteSlot st hid s = .error (.conflict "Cannot delete a booked slot")) ∧
      (sl.status = SlotStatus.CANCELLED → deleteSlot st hid s = .ok st) ∧
      (sl.status = SlotStatus.AVAILABLE →
        ∃ st', deleteSlot st hid s = .ok st' ∧ findSlot st'.slots s = none)) ∧
    (∀ op : Op, ∀ sl' ∈ (applyOp st op).slots, sl'.status = SlotStatus.CANCELLED →
      sl' ∈ st.slots) := by
  refine ⟨?_, ?_, ?_, ?_, ?_⟩
  · intro st' bk h
    obtain ⟨sl, hfind, hav, hfut, hhost, hcnt, hdup, hnoconf, hbk, hst⟩ :=
      createBooking_ok_elim h
    have hslid : sl.id = s := (findSlot_mem _ _ _ hfind).2
    refine ⟨sl, hfind, hav, ?_⟩
    rw [hst]
    show findSlot (slotUpdateStatus st.slots s SlotStatus.BOOKED) s = _
    rw [findSlot_slotUpdateStatus, hfind, Option.map_some', if_pos hslid]
  · intro st' bk h
    obtain ⟨b, sl, hfb, hfs, hown, hconf, hwin, hbk, hst⟩ := cancelBooking_ok_elim h
    have hslid : sl.id = b.slotId := (findSlot_mem _ _ _ hfs).2
    refine ⟨b, sl, hfb, hfs, ?_⟩
    rw [hst]
    show findSlot (slotUpdateStatus st.slots b.slotId SlotStatus.AVAILABLE) b.slotId = _
    rw [findSlot_slotUpdateStatus, hfs, Option.map_some', if_pos hslid]
  · intro hn
    unfold deleteSlot
    rw [hn]
  · intro sl hfind hh
    refine ⟨?_, ?_, ?_⟩
    · intro hb
      simp only [deleteSlot, hfind]
      rw [if_neg (not_not_intro hh), if_pos hb]
    · intro hc
      simp only [deleteSlot, hfind]
      rw [if_neg (not_not_intro hh), if_neg (by rw [hc]; exact fun hx => SlotStatus.noConfusion hx),
        if_pos hc]
    · intro hav
      simp only [deleteSlot, hfind]
      rw [if_neg (not_not_intro hh),
        if_neg (by rw [hav]; exact fun hx => SlotStatus.noConfusion hx),
        if_neg (by rw [hav]; exact fun hx => SlotStatus.noConfusion hx)]
      refine ⟨_, rfl, ?_⟩
      apply List.find?_eq_none.mpr
      intro x hx
      have := (List.mem_filter.mp hx).2
      simpa using this
  · intro op sl' hmem hcanc
    cases op with
    | book n u' s' =>
      simp only [applyOp] at hmem
      cases hc : createBooking st n u' s' with
      | error e => rw [hc] at hmem; exact hmem
      | ok p =>
        rw [hc] at hmem
        obtain ⟨sl, hfind, hav, hfut, hhost, hcnt, hdup, hnoconf, hbk, hst⟩ :=
          createBooking_ok_elim hc
        change sl' ∈ p.1.slots at hmem
        rw [hst] at hmem
        obtain ⟨a, ha, hfa⟩ := List.mem_map.mp hmem
        by_cases haid : a.id = s'
        · rw [if_pos haid] at hfa
          rw [← hfa] at hcanc
          exact absurd hcanc (fun hx => SlotStatus.noConfusion hx)
        · rw [if_neg haid] at hfa
          rw [← hfa]
          exact ha
    | cancel n u' b' =>
      simp only [applyOp] at hmem
      cases hc : cancelBooking st n u' b' with
      | error e => rw [hc] at hmem; exact hmem
      | ok p =>
        rw [hc] at hmem
        obtain ⟨b, sl, hfb, hfs, hown, hconf, hwin, hbk, hst⟩ := cancelBooking_ok_elim hc
        change sl' ∈ p.1.slots at hmem
        rw [hst] at hmem
        obtain ⟨a, ha, hfa⟩ := List.mem_map.mp hmem
        by_cases haid : a.id = b.slotId
        · rw [if_pos haid] at hfa
          rw [← hfa] at hcanc
          exact absurd hcanc (fun hx => SlotStatus.noConfusion hx)
        · rw [if_neg haid] at hfa
          rw [← hfa]
          exact ha

/-- C8 witness: each amended transition exercised concretely — a booking
takes slot 1 from AVAILABLE to BOOKED, a cancellation takes it back to
AVAILABLE, deleting a BOOKED slot is a Conflict, and deleting an AVAILABLE
slot removes the row. -/
theorem c8_slot_status_transitions_witness :
    (∃ sl, findSlot demoState.slots 1 = some sl ∧ sl.status = SlotStatus.AVAILABLE ∧
      findSlot stBook.slots 1 = some ⟨sl.id, sl.hostId, sl.startTime, sl.endTime, SlotStatus.BOOKED⟩) ∧
    (∃ b sl, findBooking stCancelReady.bookings 100 = some b ∧
      findSlot stCancelReady.slots b.slotId = some sl ∧
      findSlot stAfterCancel.slots b.slotId = some ⟨sl.id, sl.hostId, sl.startTime, sl.endTime, SlotStatus.AVAILABLE⟩) ∧
    deleteSlot stBooked 10 1 = .error (.conflict "Cannot delete a booked slot") ∧
    (∃ st', deleteSlot demoState 10 1 = .ok st' ∧ findSlot st'.slots 1 = none) := by
  refine ⟨?_, ?_, ?_, ?_⟩
  · exact (c8_slot_status_transitions demoState 0 2 0 1 0).1 stBook
      ⟨100, 1, 2, BookingStatus.CONFIRMED⟩ (by rfl)
  · exact (c8_slot_status_transitions stCancelReady 0 2 0 0 100).2.1 stAfterCancel
      ⟨100, 1, 2, BookingStatus.CANCELLED⟩ (by rfl)
  · exact (((c8_slot_status_transitions stBooked 0 0 10 1 0).2.2.2.1
      ⟨1, 10, 7200000, 10800000, SlotStatus.BOOKED⟩ (by decide) (by decide)).1 (by decide))
  · exact (((c8_slot_status_transitions demoState 0 0 10 1 0).2.2.2.1 demoSlot
      (by decide) (by decide)).2.2 (by decide))

/-! ### Rate-limiter lemmas -/

/-- Increment adds 1 to the looked-up key's counter and leaves the others. -/
theorem rlCount_incrCounters (cs : List (String × Nat)) (ttls ttls' : List (String × Nat))
    (k k' : String) :
    rlCount ⟨incrCounters cs k, ttls⟩ k' =
      rlCount ⟨cs, ttls'⟩ k' + (if k' = k then 1 else 0) := by
  induction cs with
  | nil =>
    by_cases h : k' = k
    · subst h
      simp [rlCount, incrCounters]
    · simp [rlCount, incrCounters, h, Ne.symm h]
  | cons kv rest ih =>
    by_cases hk : kv.1 = k
    · by_cases h' : kv.1 = k'
      · simp [rlCount, incrCounters, hk, h', hk ▸ h']
      · have hne : k' ≠ k := fun hx => h' (hk.trans hx.symm)
        simp only [rlCount, incrCounters, if_pos hk]
        rw [List.find?_cons_of_neg _ (by simpa using h'),
          List.find?_cons_of_neg _ (by simpa using h'), if_neg hne]
        rfl
    · by_cases h' : kv.1 = k'
      · have hne : k' ≠ k := fun hx => hk (h' ▸ hx)
        simp only [rlCount, incrCounters, if_neg hk]
        rw [List.find?_cons_of_pos _ (by simpa using h'),
          List.find?_cons_of_pos _ (by simpa using h'), if_neg hne]
        simp
      · simp only [rlCount, incrCounters, if_neg hk]
        rw [List.find?_cons_of_neg _ (by simpa using h'),
          List.find?_cons_of_neg _ (by simpa using h')]
        exact ih

/-- One limiter call adds exactly 1 to the caller's own counter and leaves
every other caller's counter untouched. -/
theorem rateLimitStep_count (m w : Nat) (st : RLState) (k k' : String) :
    rlCount (rateLimitStep m w st k).1 k' = rlCount st k' + (if k' = k then 1 else 0) := by
  unfold rateLimitStep redisIncr redisExpire
  by_cases h1 : rlCount st k + 1 = 1
  · simp only [h1, if_pos rfl]
    exact rlCount_incrCounters st.counters _ st.ttls k k'
  · simp only [if_neg h1]
    exact rlCount_incrCounters st.counters _ st.ttls k k'

/-- After `n` calls for key `k`, `k`'s counter has grown by `n`. -/
theorem rateLimitIter_count (m w : Nat) (k : String) (st : RLState) (n : Nat) :
    rlCount (rateLimitIter m w k st n) k = rlCount st k + n := by
  induction n with
  | zero => rfl
  | succ n ih =>
    show rlCount (rateLimitStep m w (rateLimitIter m w k st n) k).1 k = _
    rw [rateLimitStep_count, ih, if_pos rfl]
    omega

/-- After any number of calls for key `k`, another key's counter is
unchanged. -/
theorem rateLimitIter_count_other (m w : Nat) (k : String) (st : RLState) (n : Nat)
    (k' : String) (h : k' ≠ k) :
    rlCount (rateLimitIter m w k st n) k' = rlCount st k' := by
  induction n with
  | zero => rfl
  | succ n ih =>
    show rlCount (rateLimitStep m w (rateLimitIter m w k st n) k).1 k' = _
    rw [rateLimitStep_count, if_neg h, ih, Nat.add_zero]

/-- The metadata of the `n`-th request (1-based), starting from a state
where the key's counter is absent. -/
theorem rateLimitResultOfRequest_eq (m w : Nat) (k : String) (st : RLState) (n : Nat)
    (h1 : 1 ≤ n) (h0 : rlCount st k = 0) :
    rateLimitResultOfRequest m w k st n = ⟨decide (n ≤ m), m, m - n⟩ := by
  unfold rateLimitResultOfRequest rateLimitStep redisIncr
  have hc : rlCount (rateLimitIter m w k st (n - 1)) k + 1 = n := by
    rw [rateLimitIter_count, h0]
    omega
  simp only [hc]

/-- C6: for each caller the fixed-window limiter keeps one counter,
incremented by exactly one per call, with the window TTL set only on the
counter's first increment; a call is permitted iff its post-increment
count does not exceed the limit and `remaining = max(0, limit - count)`;
with the booking limits (10 per window), requests 1–10 of a fresh caller
are permitted with `remaining` falling from 9 to 0, request 11 is denied,
and other callers' counters are never affected. -/
theorem c6_rate_limiter_fixed_window (st : RLState) (k : String)
    (h : rlCount st k = 0) :
    (∀ n, rlCount (rateLimitIter 10 60 k st n) k = n) ∧
    (∀ n, 1 ≤ n → n ≤ 10 →
      rateLimitResultOfRequest 10 60 k st n = ⟨true, 10, 10 - n⟩) ∧
    rateLimitResultOfRequest 10 60 k st 11 = ⟨false, 10, 0⟩ ∧
    (∀ k', k' ≠ k → ∀ n, rlCount (rateLimitIter 10 60 k st n) k' = rlCount st k') ∧
    (∀ st' : RLState, ∀ m w : Nat,
      (rateLimitStep m w st' k).2 =
        ⟨decide (rlCount st' k + 1 ≤ m), m, m - (rlCount st' k + 1)⟩ ∧
      rlHasTtl (rateLimitStep m w st' k).1 k =
        (rlHasTtl st' k || decide (rlCount st' k = 0))) := by
  refine ⟨?_, ?_, ?_, ?_, ?_⟩
  · intro n
    rw [rateLimitIter_count, h]
    omega
  · intro n hn1 hn10
    rw [rateLimitResultOfRequest_eq 10 60 k st n hn1 h]
    simp [hn10]
  · rw [rateLimitResultOfRequest_eq 10 60 k st 11 (by omega) h]
    rfl
  · intro k' hk' n
    exact rateLimitIter_count_other 10 60 k st n k' hk'
  · intro st' m w
    constructor
    · rfl
    · unfold rateLimitStep redisIncr redisExpire rlHasTtl
      by_cases h0 : rlCount st' k = 0
      · simp [h0]
      · have : rlCount st' k + 1 ≠ 1 := by omega
        simp [this, h0]

/-- C6 witness: a fresh caller's requests 1, 10 and 11 through the
booking limiter, plus another caller's counter staying at zero. -/
theorem c6_rate_limiter_fixed_window_witness :
    rlCount (RLState.mk [] []) "rate:booking:42" = 0 ∧
    rateLimitResultOfRequest 10 60 "rate:booking:42" ⟨[], []⟩ 1 = ⟨true, 10, 9⟩ ∧
    rateLimitResultOfRequest 10 60 "rate:booking:42" ⟨[], []⟩ 10 = ⟨true, 10, 0⟩ ∧
    rateLimitResultOfRequest 10 60 "rate:booking:42" ⟨[], []⟩ 11 = ⟨false, 10, 0⟩ ∧
    rlCount (rateLimitIter 10 60 "rate:booking:42" ⟨[], []⟩ 11) "rate:booking:7" = 0 := by
  have h := c6_rate_limiter_fixed_window ⟨[], []⟩ "rate:booking:42" (by rfl)
  exact ⟨by rfl, h.2.1 1 (by omega) (by omega), h.2.1 10 (by omega) (by omega),
    h.2.2.1, h.2.2.2.1 "rate:booking:7" (by decide) 11⟩

/-- C7: the limiter fails open — whenever a counter-store operation that
the call executes fails (`incr` always runs; `expire` runs only on a
window's first increment; `ttl` always runs after them), the middleware
calls `next()` and the request proceeds to the booking path; and the
middleware never surfaces an internal error. -/
theorem c7_rate_limiter_fails_open (m w : Nat) (c : RedisConn) (k : String) :
    (c.incrFails = true → (rateLimitMiddleware m w c k).2 = .proceed) ∧
    (c.expireFails = true → rlCount c.st k = 0 → (rateLimitMiddleware m w c k).2 = .proceed) ∧
    (c.ttlFails = true → (rateLimitMiddleware m w c k).2 = .proceed) ∧
    (rateLimitMiddleware m w c k).2 ≠ .internalFailure := by
  refine ⟨?_, ?_, ?_, ?_⟩
  · intro hi
    unfold rateLimitMiddleware
    rw [if_pos hi]
  · intro he h0
    unfold rateLimitMiddleware redisIncr
    by_cases hi : c.incrFails = true
    · rw [if_pos hi]
    · rw [if_neg hi, if_pos ⟨by omega, he⟩]
  · intro ht
    unfold rateLimitMiddleware redisIncr
    by_cases hi : c.incrFails = true
    · rw [if_pos hi]
    · rw [if_neg hi]
      by_cases hx : rlCount c.st k + 1 = 1 ∧ c.expireFails
      · rw [if_pos hx]
      · rw [if_neg hx, if_pos ht]
  · intro hcontr
    unfold rateLimitMiddleware redisIncr at hcontr
    by_cases hi : c.incrFails = true
    · rw [if_pos hi] at hcontr
      exact MiddlewareOutcome.noConfusion hcontr
    · rw [if_neg hi] at hcontr
      by_cases hx : rlCount c.st k + 1 = 1 ∧ c.expireFails
      · rw [if_pos hx] at hcontr
        exact MiddlewareOutcome.noConfusion hcontr
      · rw [if_neg hx] at hcontr
        by_cases ht : c.ttlFails = true
        · rw [if_pos ht] at hcontr
          exact MiddlewareOutcome.noConfusion hcontr
        · rw [if_neg ht] at hcontr
          by_cases hm : rlCount c.st k + 1 ≤ m
          · rw [if_pos hm] at hcontr
            exact MiddlewareOutcome.noConfusion hcontr
          · rw [if_neg hm] at hcontr
            exact MiddlewareOutcome.noConfusion hcontr

/-- C7 witness: with the store unreachable (every operation failing), a
concrete request is permitted and proceeds. -/
theorem c7_rate_limiter_fails_open_witness :
    (rateLimitMiddleware 10 60 ⟨⟨[], []⟩, true, true, true⟩ "rate:booking:42").2 =
      MiddlewareOutcome.proceed :=
  (c7_rate_limiter_fails_open 10 60 ⟨⟨[], []⟩, true, true, true⟩ "rate:booking:42").1 (by rfl)

/-- A booking attempt against a found slot that is not AVAILABLE fails at
check 3 with the slot-unavailable Conflict, whoever the caller is. -/
theorem createBooking_slot_unavailable (st : DBState) (now : Int) (u s : Nat) (sl : Slot)
    (hfind : findSlot st.slots s = some sl) (hne : sl.status ≠ SlotStatus.AVAILABLE) :
    createBooking st now u s = .error (.conflict "Slot is no longer available") := by
  simp only [createBooking, hfind]
  rw [if_pos hne]

/-- Once the slot is BOOKED, the single worker rejects every remaining job
for it with the slot-unavailable Conflict, leaving the state unchanged. -/
theorem runBookingWorker_all_conflict (now : Int) (s : Nat) (jobs : List BookingJob)
    (hall : ∀ j ∈ jobs, j.slotId = s) (st : DBState) (sl : Slot)
    (hf : findSlot st.slots s = some sl) (hb : sl.status = SlotStatus.BOOKED) :
    runBookingWorker now st jobs =
      (st, jobs.map (fun _ =>
        ⟨false, none, some (.conflict "Slot is no longer available")⟩)) := by
  induction jobs with
  | nil => rfl
  | cons j rest ih =>
    have hj : j.slotId = s := hall j (by simp)
    have herr : createBooking st now j.userId j.slotId =
        .error (.conflict "Slot is no longer available") := by
      rw [hj]
      exact createBooking_slot_unavailable st now j.userId s sl hf
        (by rw [hb]; exact fun hx => SlotStatus.noConfusion hx)
    simp only [runBookingWorker, processBookingJob, herr]
    rw [ih (fun j' hj' => hall j' (List.mem_cons_of_mem _ hj'))]
    rfl

/-- C9: with the FCFS Serializer active — modelled by `runBookingWorker`,
the single consumer (`concurrency: 1`) that runs one Admission Transaction
to completion per job in strict enqueue order — among jobs all targeting
one slot, the first-submitted caller whose admission succeeds is the
unique winner and every later job is rejected with the slot-unavailable
Conflict, deterministically. -/
theorem c9_fcfs_first_submitted_wins (st : DBState) (now : Int) (s : Nat)
    (j0 : BookingJob) (rest : List BookingJob)
    (hj0 : j0.slotId = s) (hrest : ∀ j ∈ rest, j.slotId = s)
    (st1 : DBState) (bk : Booking)
    (hfirst : createBooking st now j0.userId s = .ok (st1, bk)) :
    runBookingWorker now st (j0 :: rest) =
      (st1, ⟨true, some bk, none⟩ ::
        rest.map (fun _ =>
          ⟨false, none, some (.conflict "Slot is no longer available")⟩)) := by
  obtain ⟨sl, hfind, hav, hfut, hhost, hcnt, hdup, hnoconf, hbk, hst⟩ :=
    createBooking_ok_elim hfirst
  have hslid : sl.id = s := (findSlot_mem _ _ _ hfind).2
  have hbooked : findSlot st1.slots s =
      some ⟨sl.id, sl.hostId, sl.startTime, sl.endTime, SlotStatus.BOOKED⟩ := by
    rw [hst]
    show findSlot (slotUpdateStatus st.slots s SlotStatus.BOOKED) s = _
    rw [findSlot_slotUpdateStatus, hfind, Option.map_some', if_pos hslid]
  have hfirst' : createBooking st now j0.userId j0.slotId = .ok (st1, bk) := by
    rw [hj0]
    exact hfirst
  simp only [runBookingWorker, processBookingJob, hfirst']
  rw [runBookingWorker_all_conflict now s rest hrest st1 _ hbooked rfl]

/-- C9 witness: three queued callers contend for slot 1; the
first-submitted caller 2 wins and callers 3 and 4 get the Conflict. -/
theorem c9_fcfs_first_submitted_wins_witness :
    runBookingWorker 0 demoState [⟨2, 1, 0⟩, ⟨3, 1, 1⟩, ⟨4, 1, 2⟩] =
      (stBook, [⟨true, some ⟨100, 1, 2, BookingStatus.CONFIRMED⟩, none⟩,
        ⟨false, none, some (.conflict "Slot is no longer available")⟩,
        ⟨false, none, some (.conflict "Slot is no longer available")⟩]) := by
  have h := c9_fcfs_first_submitted_wins demoState 0 1 ⟨2, 1, 0⟩ [⟨3, 1, 1⟩, ⟨4, 1, 2⟩]
    (by rfl) (by decide) stBook ⟨100, 1, 2, BookingStatus.CONFIRMED⟩ (by rfl)
  simpa using h

end SlotBooking
